import Mathlib

/-!
Shallow embedding of the pal-adl care-analytics scoring engine
(src/src/scoring_engine.py) and of the batch score materializer
(src/scripts/calculate_scores.py), with theorems settling the frozen
claims about them.

Modelling conventions:
* Python `datetime` values are modelled as integer seconds (`ℤ`); the
  source only subtracts timestamps (`total_seconds() / 3600`) and sorts
  by them, so an integer timeline is a faithful carrier.
* Python `float` arithmetic (rates, averages, percentages) is modelled
  exactly over `ℚ`; every constant of the source (2/7, 4/7, 0.5, 0.60,
  0.40, 90, 100) is a small rational, and the comparisons the code makes
  are exact at these magnitudes.
* Python exceptions (`raise ValueError`) are modelled with
  `Except String`; a propagated exception is an `Except.error`.
* Python `str` operations used by the classifier (`lower`, `strip`,
  `in`, concatenation) are modelled on `List Char`; `str.lower` is
  modelled by `Char.toLower` (the source's keyword lists are ASCII) and
  `str.strip` by dropping whitespace characters on both ends.
* Python's stable `sorted(..., key=timestamp)` is modelled by
  `List.insertionSort` on the timestamp, which is also stable.
-/

/-- RiskLevel enum of scoring_engine.py (GREEN / AMBER / RED / N/A). -/
inductive RiskLevel where
  | GREEN
  | AMBER
  | RED
  | NOT_APPLICABLE
deriving DecidableEq

/-- AssistanceLevel enum of scoring_engine.py. -/
inductive AssistanceLevel where
  | INDEPENDENT
  | SOME_ASSISTANCE
  | FULL_ASSISTANCE
  | REFUSED
  | NOT_SPECIFIED
deriving DecidableEq

/-- REFUSAL_THRESHOLD_AMBER = 2 (7-day baseline count). -/
def REFUSAL_THRESHOLD_AMBER : ℚ := 2

/-- REFUSAL_THRESHOLD_RED = 4 (7-day baseline count). -/
def REFUSAL_THRESHOLD_RED : ℚ := 4

/-- REFUSAL_BASELINE_DAYS = 7. -/
def REFUSAL_BASELINE_DAYS : ℚ := 7

/-- REFUSAL_RATE_THRESHOLD_AMBER = 2 / 7 per day. -/
def REFUSAL_RATE_THRESHOLD_AMBER : ℚ := REFUSAL_THRESHOLD_AMBER / REFUSAL_BASELINE_DAYS

/-- REFUSAL_RATE_THRESHOLD_RED = 4 / 7 per day. -/
def REFUSAL_RATE_THRESHOLD_RED : ℚ := REFUSAL_THRESHOLD_RED / REFUSAL_BASELINE_DAYS

/-- DOCUMENTATION_THRESHOLD_AMBER = 0.60. -/
def DOCUMENTATION_THRESHOLD_AMBER : ℚ := 60 / 100

/-- DOCUMENTATION_THRESHOLD_RED = 0.40 (defined in the source but never used
as a decision boundary). -/
def DOCUMENTATION_THRESHOLD_RED : ℚ := 40 / 100

/-- DomainConfig dataclass: per-domain scoring configuration. -/
structure DomainConfig where
  domain_name : String
  expected_per_day : ℚ
  gap_threshold_amber : ℤ
  gap_threshold_red : ℤ
deriving DecidableEq

/-- ADL_DOMAINS dictionary lookup (`ADL_DOMAINS.get(domain_name)`):
the five standard domain configurations. -/
def ADL_DOMAINS (name : String) : Option DomainConfig :=
  if name = "Washing/Bathing" then some ⟨"Washing/Bathing", 1, 24, 48⟩
  else if name = "Oral Care" then some ⟨"Oral Care", 2, 16, 24⟩
  else if name = "Dressing/Clothing" then some ⟨"Dressing/Clothing", 1, 24, 48⟩
  else if name = "Toileting" then some ⟨"Toileting", 4, 12, 24⟩
  else if name = "Grooming" then some ⟨"Grooming", 1 / 2, 48, 96⟩
  else none

/-- ADLEvent dataclass: one care event. Timestamps are integer seconds. -/
structure ADLEvent where
  event_timestamp : ℤ
  logged_timestamp : ℤ
  assistance_level : AssistanceLevel
  is_refusal : Bool
  event_title : Option String := none
  event_description : Option String := none
deriving DecidableEq

/-- ScoreComponent dataclass. The f-string interpolation of numeric values
into `description` is not modelled; the description holds the branch's
fixed text. -/
structure ScoreComponent where
  component_name : String
  points : ℕ
  description : String
  raw_value : Option ℚ := none
deriving DecidableEq

/-- CareRiskScore dataclass. -/
structure CareRiskScore where
  risk_level : RiskLevel
  total_points : ℕ
  components : List ScoreComponent
deriving DecidableEq

/-- DocumentationComplianceScore dataclass. -/
structure DocumentationComplianceScore where
  risk_level : RiskLevel
  compliance_percentage : ℚ
  actual_entries : ℕ
  expected_entries : ℚ
deriving DecidableEq

/-- ResidentDomainAnalysis dataclass (assistance_distribution is the
per-level count mapping). -/
structure ResidentDomainAnalysis where
  resident_id : String
  domain_name : String
  period_days : ℤ
  care_risk_score : CareRiskScore
  documentation_score : DocumentationComplianceScore
  total_events : ℕ
  refusal_count : ℕ
  max_gap_hours : Option ℚ
  assistance_distribution : AssistanceLevel → ℕ

/-! ### Event classifier (parse_assistance_level / is_refusal) -/

/-- Whether `needle` occurs as a contiguous substring of `haystack`
(Python `needle in haystack` on strings), on character lists. -/
def hasSubstr (needle : List Char) : List Char → Bool
  | [] => needle.isEmpty
  | c :: rest => needle.isPrefixOf (c :: rest) || hasSubstr needle rest

/-- Python `(description + ' ' + title).lower()` as a character list. -/
def combined_text (description title : String) : List Char :=
  (description.toList ++ ' ' :: title.toList).map Char.toLower

/-- Python `any(keyword in combined for keyword in keywords)`. -/
def has_any_keyword (keywords : List String) (text : List Char) : Bool :=
  keywords.any fun k => hasSubstr k.toList text

/-- away_keywords list (shared verbatim by parse_assistance_level and
is_refusal in the source). -/
def away_keywords : List String :=
  [" away", "away ", "away.", "away,", "on leave", "out with family", "at hospital"]

/-- refusal_keywords list (shared verbatim by parse_assistance_level and
is_refusal in the source). -/
def refusal_keywords : List String :=
  ["refused", "declined", "didn\x27t want", "did not want", "skipped"]

/-- Independence phrases checked by parse_assistance_level. -/
def independence_phrases : List String :=
  ["on his own", "on her own", "independently", "dressed herself", "dressed himself"]

/-- Full-assistance phrases checked by parse_assistance_level. -/
def full_assist_phrases : List String :=
  ["full support", "full assistance", "fully assisted"]

/-- Partial-assistance phrases checked by parse_assistance_level. -/
def some_assist_phrases : List String :=
  ["with assistance", "some assistance", "prompting", "prompted", "helped"]

/-- parse_assistance_level(description, title): keyword decision list in the
source's order (away, refusal, independence, full, partial, default).
Total by construction: every branch returns a value. -/
def parse_assistance_level (description : String) (title : String) : AssistanceLevel :=
  if has_any_keyword away_keywords (combined_text description title) then .NOT_SPECIFIED
  else if has_any_keyword refusal_keywords (combined_text description title) then .REFUSED
  else if has_any_keyword independence_phrases (combined_text description title) then .INDEPENDENT
  else if has_any_keyword full_assist_phrases (combined_text description title) then .FULL_ASSISTANCE
  else if has_any_keyword some_assist_phrases (combined_text description title) then .SOME_ASSISTANCE
  else .NOT_SPECIFIED

/-- is_refusal(description, title): away keywords suppress, then refusal
keywords decide. -/
def is_refusal (description : String) (title : String) : Bool :=
  if has_any_keyword away_keywords (combined_text description title) then false
  else has_any_keyword refusal_keywords (combined_text description title)

/-! ### Scoring engine -/

/-- ScoringEngine.calculate_refusal_score(refusal_count, period_days):
rate-normalized refusal component; raises ValueError for
non-positive period_days. -/
def calculate_refusal_score (refusal_count : ℕ) (period_days : ℤ) :
    Except String ScoreComponent :=
  if period_days ≤ 0 then .error "period_days must be a positive integer"
  else
    if (refusal_count : ℚ) / (period_days : ℚ) ≥ REFUSAL_RATE_THRESHOLD_RED then
      .ok ⟨"refusal_score", 3, "refusals at or above RED rate",
        some ((refusal_count : ℚ) / (period_days : ℚ))⟩
    else if (refusal_count : ℚ) / (period_days : ℚ) ≥ REFUSAL_RATE_THRESHOLD_AMBER then
      .ok ⟨"refusal_score", 2, "refusals at or above AMBER rate",
        some ((refusal_count : ℚ) / (period_days : ℚ))⟩
    else if 0 < refusal_count then
      .ok ⟨"refusal_score", 0, "refusals below threshold",
        some ((refusal_count : ℚ) / (period_days : ℚ))⟩
    else
      .ok ⟨"refusal_score", 0, "No refusals", some 0⟩

/-- ScoringEngine.calculate_gap_score(max_gap_hours, domain_config):
domain-threshold gap component; None means insufficient data. -/
def calculate_gap_score (max_gap_hours : Option ℚ) (domain_config : DomainConfig) :
    ScoreComponent :=
  match max_gap_hours with
  | none => ⟨"gap_score", 0, "Insufficient data for gap analysis", none⟩
  | some g =>
    if g > (domain_config.gap_threshold_red : ℚ) then
      ⟨"gap_score", 3, "max gap above RED threshold", some g⟩
    else if g > (domain_config.gap_threshold_amber : ℚ) then
      ⟨"gap_score", 2, "max gap above AMBER threshold", some g⟩
    else
      ⟨"gap_score", 0, "max gap within threshold", some g⟩

/-- assistance_scores dictionary of calculate_dependency_score:
numeric severity per assistance level, None for the excluded levels. -/
def assistance_scores : AssistanceLevel → Option ℕ
  | .INDEPENDENT => some 0
  | .SOME_ASSISTANCE => some 1
  | .FULL_ASSISTANCE => some 2
  | .REFUSED => none
  | .NOT_SPECIFIED => none

/-- Python `sorted(events, key=lambda e: e.event_timestamp)` (stable). -/
def sorted_by_timestamp (events : List ADLEvent) : List ADLEvent :=
  List.insertionSort (fun a b => a.event_timestamp ≤ b.event_timestamp) events

/-- The numeric_scores list of calculate_dependency_score: numeric severity
of each timestamp-sorted event, excluded levels dropped. -/
def numeric_scores (events : List ADLEvent) : List ℕ :=
  (sorted_by_timestamp events).filterMap fun e => assistance_scores e.assistance_level

/-- baseline_avg of calculate_dependency_score: mean of the first 3 numeric
scores. -/
def baseline_avg (events : List ADLEvent) : ℚ :=
  (((numeric_scores events).take 3).sum : ℚ) / 3

/-- recent_avg of calculate_dependency_score: mean of the last 3 numeric
scores (Python `numeric_scores[-3:]`). -/
def recent_avg (events : List ADLEvent) : ℚ :=
  (((numeric_scores events).drop ((numeric_scores events).length - 3)).sum : ℚ) / 3

/-- ScoringEngine.calculate_dependency_score(events): first-3 vs last-3
trend of numeric assistance severity. -/
def calculate_dependency_score (events : List ADLEvent) : ScoreComponent :=
  if events.length < 6 then
    ⟨"dependency_score", 0, "Insufficient events for trend analysis", none⟩
  else if (numeric_scores events).length < 6 then
    ⟨"dependency_score", 0, "Insufficient valid assistance levels for trend", none⟩
  else if recent_avg events > baseline_avg events + 1 / 2 then
    ⟨"dependency_score", 2, "Increasing dependency trend",
      some (recent_avg events - baseline_avg events)⟩
  else
    ⟨"dependency_score", 0, "No significant dependency change",
      some (recent_avg events - baseline_avg events)⟩

/-- Hours between two consecutive timestamps:
`(t2 - t1).total_seconds() / 3600`. -/
def gap_hours (t1 t2 : ℤ) : ℚ := ((t2 - t1 : ℤ) : ℚ) / 3600

/-- The gaps loop of calculate_care_risk_score: consecutive differences of
a timestamp list, in hours. -/
def consecutive_gaps : List ℤ → List ℚ
  | [] => []
  | [_] => []
  | t1 :: t2 :: rest => gap_hours t1 t2 :: consecutive_gaps (t2 :: rest)

/-- The gaps list of calculate_care_risk_score: consecutive differences of
the timestamp-sorted events, in hours. -/
def gapsOf (events : List ADLEvent) : List ℚ :=
  consecutive_gaps ((sorted_by_timestamp events).map ADLEvent.event_timestamp)

/-- Python `max(gaps)` over a possibly empty list
(`max(gaps) if gaps else None`). -/
def pyMax : List ℚ → Option ℚ
  | [] => none
  | x :: xs =>
    match pyMax xs with
    | none => some x
    | some m => some (max x m)

/-- max_gap_hours of calculate_care_risk_score (and of
analyze_resident_domain, which recomputes it identically). -/
def max_gap_hours (events : List ADLEvent) : Option ℚ := pyMax (gapsOf events)

/-- refusal_count of calculate_care_risk_score:
`sum(1 for e in events if e.is_refusal)`. -/
def refusal_flag_count (events : List ADLEvent) : ℕ :=
  (events.filter fun e => e.is_refusal).length

/-- ScoringEngine.calculate_care_risk_score(events, domain_config,
period_days): sums the three components and maps the total to a level.
A ValueError raised by calculate_refusal_score propagates. -/
def calculate_care_risk_score (events : List ADLEvent) (domain_config : DomainConfig)
    (period_days : ℤ) : Except String CareRiskScore :=
  (calculate_refusal_score (refusal_flag_count events) period_days).bind fun refusal_score =>
    .ok
      { risk_level :=
          if 5 ≤ refusal_score.points + (calculate_gap_score (max_gap_hours events) domain_config).points
              + (calculate_dependency_score events).points then .RED
          else if 2 ≤ refusal_score.points + (calculate_gap_score (max_gap_hours events) domain_config).points
              + (calculate_dependency_score events).points then .AMBER
          else .GREEN
        total_points := refusal_score.points
          + (calculate_gap_score (max_gap_hours events) domain_config).points
          + (calculate_dependency_score events).points
        components := [refusal_score, calculate_gap_score (max_gap_hours events) domain_config,
          calculate_dependency_score events] }

/-- ScoringEngine.calculate_documentation_score(actual_entries,
expected_per_day, period_days). -/
def calculate_documentation_score (actual_entries : ℕ) (expected_per_day : ℚ)
    (period_days : ℤ) : DocumentationComplianceScore :=
  if expected_per_day * (period_days : ℚ) = 0 then
    { risk_level := .NOT_APPLICABLE
      compliance_percentage := 0
      actual_entries := actual_entries
      expected_entries := 0 }
  else
    { risk_level :=
        if (actual_entries : ℚ) / (expected_per_day * (period_days : ℚ)) * 100 ≥ 90 then .GREEN
        else if (actual_entries : ℚ) / (expected_per_day * (period_days : ℚ)) * 100
            ≥ DOCUMENTATION_THRESHOLD_AMBER * 100 then .AMBER
        else .RED
      compliance_percentage := (actual_entries : ℚ) / (expected_per_day * (period_days : ℚ)) * 100
      actual_entries := actual_entries
      expected_entries := expected_per_day * (period_days : ℚ) }

/-- ScoringEngine.analyze_resident_domain(resident_id, domain_name, events,
period_days): domain lookup (unknown name raises), then both scores and the
supporting metrics. -/
def analyze_resident_domain (resident_id : String) (domain_name : String)
    (events : List ADLEvent) (period_days : ℤ) : Except String ResidentDomainAnalysis :=
  match ADL_DOMAINS domain_name with
  | none => .error ("Unknown domain: " ++ domain_name)
  | some domain_config =>
    (calculate_care_risk_score events domain_config period_days).bind fun care_risk =>
      .ok
        { resident_id := resident_id
          domain_name := domain_name
          period_days := period_days
          care_risk_score := care_risk
          documentation_score :=
            calculate_documentation_score events.length domain_config.expected_per_day period_days
          total_events := events.length
          refusal_count := refusal_flag_count events
          max_gap_hours := max_gap_hours events
          assistance_distribution := fun lvl =>
            (events.filter fun e => e.assistance_level = lvl).length }

/-! ### Batch materializer (scripts/calculate_scores.py) -/

/-- One fetched row of fact_adl_event, as fetch_events returns it
(event_timestamp, logged_timestamp, assistance_level, is_refusal,
event_title, event_description). Nullable text columns are Options;
timestamps are integer seconds. -/
structure EventRow where
  event_timestamp : ℤ
  logged_timestamp : ℤ
  assistance_level : Option String
  is_refusal_raw : Bool
  event_title : Option String
  event_description : Option String

/-- Python `str(x)` on a nullable string (str(None) is the text "None"). -/
def pyStr : Option String → String
  | none => "None"
  | some s => s

/-- Python `s.strip()` as a character list: whitespace dropped from both
ends. -/
def pyStrip (s : String) : List Char :=
  ((s.toList.dropWhile Char.isWhitespace).reverse.dropWhile Char.isWhitespace).reverse

/-- Truthiness of `value and str(value).strip()` for a nullable string:
the value is present and non-empty after stripping whitespace. -/
def strippedNonempty : Option String → Bool
  | none => false
  | some s => !(pyStrip s).isEmpty

/-- has_text_context of to_adl_events:
`bool((description and str(description).strip()) or (title and str(title).strip()))`. -/
def has_text_context (row : EventRow) : Bool :=
  strippedNonempty row.event_description || strippedNonempty row.event_title

/-- The assistance-level parsing of to_adl_events:
`AssistanceLevel(row[2] if row[2] else 'Not Specified')` with the
ValueError fallback to Not Specified. -/
def parse_assistance_value : Option String → AssistanceLevel
  | none => .NOT_SPECIFIED
  | some s =>
    if s = "" then .NOT_SPECIFIED
    else if s = "Independent" then .INDEPENDENT
    else if s = "Some Assistance" then .SOME_ASSISTANCE
    else if s = "Full Assistance" then .FULL_ASSISTANCE
    else if s = "Refused" then .REFUSED
    else if s = "Not Specified" then .NOT_SPECIFIED
    else .NOT_SPECIFIED

/-- The per-row body of to_adl_events: the refusal flag is recomputed from
text via is_refusal when any text context exists, else the stored boolean
is used. -/
def to_adl_event (row : EventRow) : ADLEvent :=
  { event_timestamp := row.event_timestamp
    logged_timestamp := row.logged_timestamp
    assistance_level := parse_assistance_value row.assistance_level
    is_refusal :=
      if has_text_context row then is_refusal (pyStr row.event_description) (pyStr row.event_title)
      else row.is_refusal_raw
    event_title := row.event_title
    event_description := row.event_description }

/-- to_adl_events(rows). -/
def to_adl_events (rows : List EventRow) : List ADLEvent :=
  rows.map to_adl_event

/-- The stores calculate_period_scores reads: active residents, configured
domains (both id, name) and the in-window event rows per
(resident_id, domain_id) pair, abstracting fetch_events for the fixed
window of one call. -/
structure Database where
  residents : List (ℕ × String)
  domains : List (ℕ × String)
  fetch_events : ℕ → ℕ → List EventRow

/-- One upserted fact_resident_domain_score row, keyed by the
(resident, domain) identity of its combination (the window ids are fixed
per call) and carrying the flattened analysis. -/
structure ScoreRow where
  resident_id : ℕ
  domain_id : ℕ
  analysis : ResidentDomainAnalysis

/-- The summary dictionary calculate_period_scores returns (the date ids
are window plumbing and not modelled). -/
structure BatchSummary where
  residents : ℕ
  domains : ℕ
  processed : ℕ
  written : ℕ
  skipped : ℕ

/-- The resident×domain iteration order of calculate_period_scores:
for each resident, every domain. -/
def all_pairs_of (rs ds : List (ℕ × String)) : List ((ℕ × String) × (ℕ × String)) :=
  rs.bind fun r => ds.map fun d => (r, d)

/-- all combinations of a database's residents and domains. -/
def all_pairs (db : Database) : List ((ℕ × String) × (ℕ × String)) :=
  all_pairs_of db.residents db.domains

/-- The nested loop body of calculate_period_scores over the remaining
combinations: counts processed/written/skipped and collects the upserted
rows in loop order; an exception raised while scoring a combination
propagates (there is no per-item handler in the source). -/
def run_pairs (db : Database) (period_days : ℤ) :
    List ((ℕ × String) × (ℕ × String)) → Except String (ℕ × ℕ × ℕ × List ScoreRow)
  | [] => .ok (0, 0, 0, [])
  | q :: rest =>
    if (db.fetch_events q.1.1 q.2.1).isEmpty then
      match run_pairs db period_days rest with
      | .error e => .error e
      | .ok (p, w, s, out) => .ok (p + 1, w, s + 1, out)
    else
      match analyze_resident_domain (toString q.1.1) q.2.2
          (to_adl_events (db.fetch_events q.1.1 q.2.1)) period_days with
      | .error e => .error e
      | .ok analysis =>
        match run_pairs db period_days rest with
        | .error e => .error e
        | .ok (p, w, s, out) =>
          .ok (p + 1, w + 1, s, ⟨q.1.1, q.2.1, analysis⟩ :: out)

/-- calculate_period_scores(conn, end_date, period_days, client_name):
iterates all resident×domain combinations and returns the summary counts
together with the rows upserted by the run. -/
def calculate_period_scores (db : Database) (period_days : ℤ) :
    Except String (BatchSummary × List ScoreRow) :=
  match run_pairs db period_days (all_pairs db) with
  | .error e => .error e
  | .ok (p, w, s, out) =>
    .ok (⟨db.residents.length, db.domains.length, p, w, s⟩, out)

/-! ### Claims about the classifier -/

/-- C7: parse_assistance_level lower-cases the concatenated text and applies
its rules in fixed priority order: away keywords win (and the result is
then not a refusal even if refusal words appear), then refusal keywords,
then independence, full-assistance and partial-assistance phrases, with
Not Specified as the default; being a total function it never raises. -/
theorem C7_classifier_priority (d t : String) :
    (has_any_keyword away_keywords (combined_text d t) = true →
      parse_assistance_level d t = .NOT_SPECIFIED ∧ is_refusal d t = false)
    ∧ (has_any_keyword away_keywords (combined_text d t) = false →
        has_any_keyword refusal_keywords (combined_text d t) = true →
        parse_assistance_level d t = .REFUSED)
    ∧ (has_any_keyword away_keywords (combined_text d t) = false →
        has_any_keyword refusal_keywords (combined_text d t) = false →
        has_any_keyword independence_phrases (combined_text d t) = true →
        parse_assistance_level d t = .INDEPENDENT)
    ∧ (has_any_keyword away_keywords (combined_text d t) = false →
        has_any_keyword refusal_keywords (combined_text d t) = false →
        has_any_keyword independence_phrases (combined_text d t) = false →
        has_any_keyword full_assist_phrases (combined_text d t) = true →
        parse_assistance_level d t = .FULL_ASSISTANCE)
    ∧ (has_any_keyword away_keywords (combined_text d t) = false →
        has_any_keyword refusal_keywords (combined_text d t) = false →
        has_any_keyword independence_phrases (combined_text d t) = false →
        has_any_keyword full_assist_phrases (combined_text d t) = false →
        has_any_keyword some_assist_phrases (combined_text d t) = true →
        parse_assistance_level d t = .SOME_ASSISTANCE)
    ∧ (has_any_keyword away_keywords (combined_text d t) = false →
        has_any_keyword refusal_keywords (combined_text d t) = false →
        has_any_keyword independence_phrases (combined_text d t) = false →
        has_any_keyword full_assist_phrases (combined_text d t) = false →
        has_any_keyword some_assist_phrases (combined_text d t) = false →
        parse_assistance_level d t = .NOT_SPECIFIED) := by
  refine ⟨?_, ?_, ?_, ?_, ?_, ?_⟩ <;>
    intros <;> simp [parse_assistance_level, is_refusal, *]

/-- C10: the standalone refusal flag and the derived assistance level never
disagree: is_refusal returns true exactly when parse_assistance_level
returns Refused, both testing the same away list before the same refusal
list. -/
theorem C10_is_refusal_iff_refused (d t : String) :
    is_refusal d t = true ↔ parse_assistance_level d t = .REFUSED := by
  cases ha : has_any_keyword away_keywords (combined_text d t) <;>
    cases hr : has_any_keyword refusal_keywords (combined_text d t) <;>
      cases hi : has_any_keyword independence_phrases (combined_text d t) <;>
        cases hf : has_any_keyword full_assist_phrases (combined_text d t) <;>
          cases hs : has_any_keyword some_assist_phrases (combined_text d t) <;>
            simp [is_refusal, parse_assistance_level, ha, hr, hi, hf, hs]

/-- The row of end-to-end scenario D: text "Resident refused morning wash"
with a stale stored is_refusal = False. -/
def scenario_d_row : EventRow :=
  { event_timestamp := 0
    logged_timestamp := 0
    assistance_level := none
    is_refusal_raw := false
    event_title := some "Resident refused morning wash"
    event_description := none }

/-- C6: converting a stored row for scoring recomputes the refusal flag from
text via the classifier whenever title or description is non-empty after
stripping whitespace, overriding the stored boolean; only when both are
empty is the stored boolean used; in particular scenario D's row (text
"Resident refused morning wash", stored is_refusal = False) is scored with
is_refusal = true. -/
theorem C6_refusal_reconciliation :
    (∀ row : EventRow,
      (strippedNonempty row.event_description || strippedNonempty row.event_title) = true →
        (to_adl_event row).is_refusal
          = is_refusal (pyStr row.event_description) (pyStr row.event_title))
    ∧ (∀ row : EventRow,
      (strippedNonempty row.event_description || strippedNonempty row.event_title) = false →
        (to_adl_event row).is_refusal = row.is_refusal_raw)
    ∧ (to_adl_event scenario_d_row).is_refusal = true := by
  refine ⟨fun row h => ?_, fun row h => ?_, ?_⟩
  · simp [to_adl_event, has_text_context, h]
  · simp [to_adl_event, has_text_context, h]
  · decide

/-! ### Claims about the component scores -/

/-- C2: for positive period_days the refusal component awards 3 points
exactly when the rate reaches 4/7 per day, 2 points exactly when it
reaches 2/7 but not 4/7, and 0 points exactly when it is below 2/7 (even
with refusal_count positive: one refusal over 30 days scores 0, exactly
2/7 scores 2, exactly 4/7 scores 3); non-positive period_days signals the
invalid-input error instead of returning a score. -/
theorem C2_refusal_score_thresholds (refusal_count : ℕ) (period_days : ℤ) :
    (0 < period_days →
      ∃ comp, calculate_refusal_score refusal_count period_days = .ok comp
        ∧ (comp.points = 3 ↔ 4 / 7 ≤ (refusal_count : ℚ) / (period_days : ℚ))
        ∧ (comp.points = 2 ↔ 2 / 7 ≤ (refusal_count : ℚ) / (period_days : ℚ)
            ∧ (refusal_count : ℚ) / (period_days : ℚ) < 4 / 7)
        ∧ (comp.points = 0 ↔ (refusal_count : ℚ) / (period_days : ℚ) < 2 / 7))
    ∧ (period_days ≤ 0 →
        calculate_refusal_score refusal_count period_days
          = .error "period_days must be a positive integer")
    ∧ (∃ c, calculate_refusal_score 1 30 = .ok c ∧ c.points = 0)
    ∧ (∃ c, calculate_refusal_score 2 7 = .ok c ∧ c.points = 2)
    ∧ (∃ c, calculate_refusal_score 4 7 = .ok c ∧ c.points = 3) := by
  have hthr : REFUSAL_RATE_THRESHOLD_RED = 4 / 7 ∧ REFUSAL_RATE_THRESHOLD_AMBER = 2 / 7 := by
    constructor <;>
      norm_num [REFUSAL_RATE_THRESHOLD_RED, REFUSAL_RATE_THRESHOLD_AMBER,
        REFUSAL_THRESHOLD_RED, REFUSAL_THRESHOLD_AMBER, REFUSAL_BASELINE_DAYS]
  refine ⟨?_, ?_, ?_, ?_, ?_⟩
  · intro hpd
    unfold calculate_refusal_score
    rw [if_neg (by omega), hthr.1, hthr.2]
    rcases le_or_lt (4 / 7 : ℚ) ((refusal_count : ℚ) / (period_days : ℚ)) with h4 | h4
    · rw [if_pos (by exact h4)]
      refine ⟨_, rfl, ?_, ?_, ?_⟩
      · simpa using h4
      · simp
        intro h
        linarith
      · simp
        linarith
    · rw [if_neg (by exact not_le.mpr h4)]
      rcases le_or_lt (2 / 7 : ℚ) ((refusal_count : ℚ) / (period_days : ℚ)) with h2 | h2
      · rw [if_pos (by exact h2)]
        refine ⟨_, rfl, ?_, ?_, ?_⟩
        · simp
          linarith
        · simp
          exact ⟨h2, h4⟩
        · simp
          linarith
      · rw [if_neg (by exact not_le.mpr h2)]
        by_cases hc : 0 < refusal_count
        · rw [if_pos hc]
          refine ⟨_, rfl, ?_, ?_, ?_⟩
          · simp
            linarith
          · simp
            intro h
            linarith
          · simpa using h2
        · rw [if_neg hc]
          refine ⟨_, rfl, ?_, ?_, ?_⟩
          · simp
            linarith
          · simp
            intro h
            linarith
          · simpa using h2
  · intro hpd
    unfold calculate_refusal_score
    rw [if_pos hpd]
  · refine ⟨⟨"refusal_score", 0, "refusals below threshold", some ((1 : ℚ) / 30)⟩, ?_, rfl⟩
    unfold calculate_refusal_score
    rw [if_neg (by omega), if_neg (by
        norm_num [REFUSAL_RATE_THRESHOLD_RED, REFUSAL_THRESHOLD_RED, REFUSAL_BASELINE_DAYS]),
      if_neg (by
        norm_num [REFUSAL_RATE_THRESHOLD_AMBER, REFUSAL_THRESHOLD_AMBER, REFUSAL_BASELINE_DAYS]),
      if_pos (by norm_num)]
    norm_num
  · refine ⟨⟨"refusal_score", 2, "refusals at or above AMBER rate", some ((2 : ℚ) / 7)⟩, ?_, rfl⟩
    unfold calculate_refusal_score
    rw [if_neg (by omega), if_neg (by
        norm_num [REFUSAL_RATE_THRESHOLD_RED, REFUSAL_THRESHOLD_RED, REFUSAL_BASELINE_DAYS]),
      if_pos (by
        norm_num [REFUSAL_RATE_THRESHOLD_AMBER, REFUSAL_THRESHOLD_AMBER, REFUSAL_BASELINE_DAYS])]
    norm_num
  · refine ⟨⟨"refusal_score", 3, "refusals at or above RED rate", some ((4 : ℚ) / 7)⟩, ?_, rfl⟩
    unfold calculate_refusal_score
    rw [if_neg (by omega), if_pos (by
        norm_num [REFUSAL_RATE_THRESHOLD_RED, REFUSAL_THRESHOLD_RED, REFUSAL_BASELINE_DAYS])]
    norm_num

/-- The Oral Care configuration, used as a concrete instance. -/
def oral_care_config : DomainConfig := ⟨"Oral Care", 2, 16, 24⟩

/-- C3: the gap component scores 0 for a null max gap; otherwise, for a
config honouring the documented amber-below-red invariant, it scores 3
exactly when the gap exceeds the red threshold, 2 exactly when it exceeds
the amber threshold without exceeding the red one (a gap equal to the red
threshold scores 2), and 0 exactly when it is at most the amber threshold
(a gap equal to the amber threshold scores 0). -/
theorem C3_gap_score_thresholds (domain_config : DomainConfig)
    (hcfg : domain_config.gap_threshold_amber ≤ domain_config.gap_threshold_red) :
    (calculate_gap_score none domain_config).points = 0
    ∧ ∀ g : ℚ,
      ((calculate_gap_score (some g) domain_config).points = 3 ↔
        (domain_config.gap_threshold_red : ℚ) < g)
      ∧ ((calculate_gap_score (some g) domain_config).points = 2 ↔
          (domain_config.gap_threshold_amber : ℚ) < g
            ∧ g ≤ (domain_config.gap_threshold_red : ℚ))
      ∧ ((calculate_gap_score (some g) domain_config).points = 0 ↔
          g ≤ (domain_config.gap_threshold_amber : ℚ)) := by
  have hq : (domain_config.gap_threshold_amber : ℚ) ≤ (domain_config.gap_threshold_red : ℚ) := by
    exact_mod_cast hcfg
  refine ⟨rfl, fun g => ?_⟩
  simp only [calculate_gap_score]
  by_cases hred : g > (domain_config.gap_threshold_red : ℚ)
  · rw [if_pos hred]
    refine ⟨?_, ?_, ?_⟩
    · simpa using hred
    · simp
      intro _
      linarith
    · simp
      linarith
  · rw [if_neg hred]
    by_cases hamb : g > (domain_config.gap_threshold_amber : ℚ)
    · rw [if_pos hamb]
      refine ⟨?_, ?_, ?_⟩
      · simp
        linarith
      · simp
        exact ⟨hamb, by linarith⟩
      · simp
        linarith
    · rw [if_neg hamb]
      refine ⟨?_, ?_, ?_⟩
      · simp
        linarith
      · simp
        intro _
        linarith
      · simp
        linarith

/-- Witness for C3 at the Oral Care configuration: a null gap scores 0, and
a gap exactly at the red threshold (24h) scores 2 because 16 < 24 ≤ 24. -/
theorem C3_gap_score_thresholds_witness :
    (calculate_gap_score none oral_care_config).points = 0
    ∧ ((calculate_gap_score (some 24) oral_care_config).points = 2 ↔
        (oral_care_config.gap_threshold_amber : ℚ) < 24
          ∧ (24 : ℚ) ≤ (oral_care_config.gap_threshold_red : ℚ)) :=
  ⟨(C3_gap_score_thresholds oral_care_config (by decide)).1,
    ((C3_gap_score_thresholds oral_care_config (by decide)).2 24).2.1⟩

/-- C4: the documentation score computes expected = expected_per_day *
period_days; a zero expectation yields risk N/A with percentage 0 (no
division); otherwise percentage = actual / expected * 100 with GREEN
exactly at percentage ≥ 90, AMBER exactly at 60 ≤ percentage < 90, and RED
exactly at percentage < 60 — two cuts only, no third tier at 40%. -/
theorem C4_documentation_score_cuts (actual_entries : ℕ) (expected_per_day : ℚ)
    (period_days : ℤ) :
    (expected_per_day * (period_days : ℚ) = 0 →
      calculate_documentation_score actual_entries expected_per_day period_days
        = { risk_level := .NOT_APPLICABLE
            compliance_percentage := 0
            actual_entries := actual_entries
            expected_entries := 0 })
    ∧ (expected_per_day * (period_days : ℚ) ≠ 0 →
        (calculate_documentation_score actual_entries expected_per_day period_days).expected_entries
            = expected_per_day * (period_days : ℚ)
        ∧ (calculate_documentation_score actual_entries expected_per_day period_days).compliance_percentage
            = (actual_entries : ℚ) / (expected_per_day * (period_days : ℚ)) * 100
        ∧ ((calculate_documentation_score actual_entries expected_per_day period_days).risk_level = .GREEN
            ↔ 90 ≤ (actual_entries : ℚ) / (expected_per_day * (period_days : ℚ)) * 100)
        ∧ ((calculate_documentation_score actual_entries expected_per_day period_days).risk_level = .AMBER
            ↔ 60 ≤ (actual_entries : ℚ) / (expected_per_day * (period_days : ℚ)) * 100
              ∧ (actual_entries : ℚ) / (expected_per_day * (period_days : ℚ)) * 100 < 90)
        ∧ ((calculate_documentation_score actual_entries expected_per_day period_days).risk_level = .RED
            ↔ (actual_entries : ℚ) / (expected_per_day * (period_days : ℚ)) * 100 < 60)) := by
  have hamb : DOCUMENTATION_THRESHOLD_AMBER * 100 = 60 := by
    norm_num [DOCUMENTATION_THRESHOLD_AMBER]
  constructor
  · intro h0
    unfold calculate_documentation_score
    rw [if_pos h0]
  · intro h0
    unfold calculate_documentation_score
    rw [if_neg h0, hamb]
    refine ⟨rfl, rfl, ?_, ?_, ?_⟩
    · by_cases h90 : (actual_entries : ℚ) / (expected_per_day * (period_days : ℚ)) * 100 ≥ 90
      · rw [if_pos h90]
        simpa using h90
      · rw [if_neg h90]
        by_cases h60 : (actual_entries : ℚ) / (expected_per_day * (period_days : ℚ)) * 100 ≥ 60
        · rw [if_pos h60]
          simp
          linarith [not_le.mp h90]
        · rw [if_neg h60]
          simp
          linarith [not_le.mp h90]
    · by_cases h90 : (actual_entries : ℚ) / (expected_per_day * (period_days : ℚ)) * 100 ≥ 90
      · rw [if_pos h90]
        simp
        intro _
        linarith
      · rw [if_neg h90]
        by_cases h60 : (actual_entries : ℚ) / (expected_per_day * (period_days : ℚ)) * 100 ≥ 60
        · rw [if_pos h60]
          simp
          exact ⟨h60, not_le.mp h90⟩
        · rw [if_neg h60]
          simp
          intro h
          linarith [not_le.mp h60]
    · by_cases h90 : (actual_entries : ℚ) / (expected_per_day * (period_days : ℚ)) * 100 ≥ 90
      · rw [if_pos h90]
        simp
        linarith
      · rw [if_neg h90]
        by_cases h60 : (actual_entries : ℚ) / (expected_per_day * (period_days : ℚ)) * 100 ≥ 60
        · rw [if_pos h60]
          simp
          linarith
        · rw [if_neg h60]
          simpa using not_le.mp h60

/-- C5: the dependency component scores 0 whenever fewer than 6 events exist
or fewer than 6 events carry a numeric severity (Independent = 0, Some
Assistance = 1, Full Assistance = 2; Refused and Not Specified excluded);
otherwise, over the timestamp-sorted numeric-filtered list (excluded
events consume no slot) it compares the mean of the last 3 numeric scores
with the mean of the first 3 and scores 2 exactly when the recent mean
exceeds the baseline mean by more than 0.5, else 0 — a flat or decreasing
trend never adds points. -/
theorem C5_dependency_score_trend (events : List ADLEvent) :
    (events.length < 6 → (calculate_dependency_score events).points = 0)
    ∧ ((numeric_scores events).length < 6 → (calculate_dependency_score events).points = 0)
    ∧ (6 ≤ events.length → 6 ≤ (numeric_scores events).length →
        ((calculate_dependency_score events).points = 2 ↔
          baseline_avg events + 1 / 2 < recent_avg events)
        ∧ ((calculate_dependency_score events).points = 0 ↔
          recent_avg events ≤ baseline_avg events + 1 / 2)) := by
  refine ⟨?_, ?_, ?_⟩
  · intro h
    unfold calculate_dependency_score
    rw [if_pos h]
  · intro h
    unfold calculate_dependency_score
    by_cases he : events.length < 6
    · rw [if_pos he]
    · rw [if_neg he, if_pos h]
  · intro he hn
    unfold calculate_dependency_score
    rw [if_neg (by omega), if_neg (by omega)]
    by_cases ht : recent_avg events > baseline_avg events + 1 / 2
    · rw [if_pos ht]
      constructor
      · simpa using ht
      · simp
        linarith
    · rw [if_neg ht]
      constructor
      · simp
        linarith [not_lt.mp ht]
      · simpa using not_lt.mp ht

/-- For positive period_days calculate_refusal_score returns a component
(never an error), always named refusal_score. -/
lemma refusal_score_ok (refusal_count : ℕ) (period_days : ℤ) (h : 0 < period_days) :
    ∃ comp, calculate_refusal_score refusal_count period_days = .ok comp
      ∧ comp.component_name = "refusal_score" := by
  unfold calculate_refusal_score
  rw [if_neg (by omega)]
  split
  · exact ⟨_, rfl, rfl⟩
  · split
    · exact ⟨_, rfl, rfl⟩
    · split
      · exact ⟨_, rfl, rfl⟩
      · exact ⟨_, rfl, rfl⟩

/-- Every branch of calculate_gap_score is named gap_score. -/
lemma gap_score_name (g : Option ℚ) (domain_config : DomainConfig) :
    (calculate_gap_score g domain_config).component_name = "gap_score" := by
  cases g with
  | none => rfl
  | some x =>
    simp only [calculate_gap_score]
    split
    · rfl
    · split <;> rfl

/-- Every branch of calculate_dependency_score is named dependency_score. -/
lemma dependency_score_name (events : List ADLEvent) :
    (calculate_dependency_score events).component_name = "dependency_score" := by
  unfold calculate_dependency_score
  split
  · rfl
  · split
    · rfl
    · split <;> rfl

/-- consecutive_gaps yields one gap per adjacent pair. -/
lemma consecutive_gaps_length (l : List ℤ) : (consecutive_gaps l).length = l.length - 1 := by
  match l with
  | [] => rfl
  | [_] => rfl
  | a :: b :: rest =>
    have ih := consecutive_gaps_length (b :: rest)
    simp only [consecutive_gaps, List.length_cons] at ih ⊢
    omega

/-- pyMax is none exactly on the empty list (Python `max(gaps) if gaps
else None`). -/
lemma pyMax_eq_none_iff (l : List ℚ) : pyMax l = none ↔ l = [] := by
  cases l with
  | nil => simp [pyMax]
  | cons x xs => cases h : pyMax xs <;> simp [pyMax, h]

/-- pyMax returns a member of the list that bounds every member. -/
lemma pyMax_spec (l : List ℚ) (m : ℚ) (h : pyMax l = some m) :
    m ∈ l ∧ ∀ g ∈ l, g ≤ m := by
  induction l generalizing m with
  | nil => simp [pyMax] at h
  | cons x xs ih =>
    cases hx : pyMax xs with
    | none =>
      have hnil : xs = [] := (pyMax_eq_none_iff xs).mp hx
      subst hnil
      simp [pyMax] at h
      subst h
      simp
    | some m' =>
      simp [pyMax, hx] at h
      obtain ⟨hm', hub⟩ := ih m' hx
      subst h
      constructor
      · rcases max_choice x m' with h1 | h1 <;> rw [h1]
        · exact List.mem_cons_self x xs
        · exact List.mem_cons_of_mem x hm'
      · intro g hg
        rcases List.mem_cons.mp hg with h1 | h1
        · subst h1
          exact le_max_left _ _
        · exact le_trans (hub g h1) (le_max_right _ _)

/-- The gaps list has an entry per adjacent pair of the sorted events. -/
lemma gapsOf_length (events : List ADLEvent) :
    (gapsOf events).length = events.length - 1 := by
  unfold gapsOf
  rw [consecutive_gaps_length, List.length_map]
  unfold sorted_by_timestamp
  rw [List.length_insertionSort]

/-- max_gap_hours is null exactly when fewer than 2 events exist. -/
lemma max_gap_hours_eq_none_iff (events : List ADLEvent) :
    max_gap_hours events = none ↔ events.length < 2 := by
  unfold max_gap_hours
  rw [pyMax_eq_none_iff, ← List.length_eq_zero, gapsOf_length]
  omega

/-- C1: for positive period_days the care risk score is returned with
exactly the three components refusal, gap, dependency in that order,
total_points equal to the sum of their points, RED exactly at
total ≥ 5, AMBER exactly at 2 ≤ total < 5 and GREEN exactly at
total < 2; the gap fed to the gap component is the maximum of the
timestamp-sorted consecutive differences in hours and is null exactly
when fewer than 2 events exist. -/
theorem C1_care_risk_score_shape (events : List ADLEvent) (domain_config : DomainConfig)
    (period_days : ℤ) (hpd : 0 < period_days) :
    ∃ crs refusal_comp,
      calculate_care_risk_score events domain_config period_days = .ok crs
      ∧ calculate_refusal_score (refusal_flag_count events) period_days = .ok refusal_comp
      ∧ crs.components = [refusal_comp,
          calculate_gap_score (max_gap_hours events) domain_config,
          calculate_dependency_score events]
      ∧ crs.components.map ScoreComponent.component_name
          = ["refusal_score", "gap_score", "dependency_score"]
      ∧ crs.total_points = (crs.components.map ScoreComponent.points).sum
      ∧ (crs.risk_level = .RED ↔ 5 ≤ crs.total_points)
      ∧ (crs.risk_level = .AMBER ↔ 2 ≤ crs.total_points ∧ crs.total_points < 5)
      ∧ (crs.risk_level = .GREEN ↔ crs.total_points < 2)
      ∧ (max_gap_hours events = none ↔ events.length < 2)
      ∧ (∀ m, max_gap_hours events = some m →
          m ∈ gapsOf events ∧ ∀ g ∈ gapsOf events, g ≤ m) := by
  obtain ⟨rc, hrc, hname⟩ := refusal_score_ok (refusal_flag_count events) period_days hpd
  have hcrs : calculate_care_risk_score events domain_config period_days
      = .ok
        { risk_level :=
            if 5 ≤ rc.points + (calculate_gap_score (max_gap_hours events) domain_config).points
                + (calculate_dependency_score events).points then .RED
            else if 2 ≤ rc.points + (calculate_gap_score (max_gap_hours events) domain_config).points
                + (calculate_dependency_score events).points then .AMBER
            else .GREEN
          total_points := rc.points
            + (calculate_gap_score (max_gap_hours events) domain_config).points
            + (calculate_dependency_score events).points
          components := [rc, calculate_gap_score (max_gap_hours events) domain_config,
            calculate_dependency_score events] } := by
    unfold calculate_care_risk_score
    rw [hrc]
    rfl
  refine ⟨_, rc, hcrs, hrc, rfl, ?_, ?_, ?_, ?_, ?_, max_gap_hours_eq_none_iff events,
    fun m hm => pyMax_spec _ m hm⟩
  · simp [hname, gap_score_name, dependency_score_name]
  · simp
    omega
  · by_cases h5 : 5 ≤ rc.points + (calculate_gap_score (max_gap_hours events) domain_config).points
        + (calculate_dependency_score events).points
    · simp [h5]
    · rw [if_neg h5]
      by_cases h2 : 2 ≤ rc.points + (calculate_gap_score (max_gap_hours events) domain_config).points
          + (calculate_dependency_score events).points
      · simp [h2, h5]
      · rw [if_neg h2]
        simp
        omega
  · by_cases h5 : 5 ≤ rc.points + (calculate_gap_score (max_gap_hours events) domain_config).points
        + (calculate_dependency_score events).points
    · rw [if_pos h5]
      simp
      omega
    · rw [if_neg h5]
      by_cases h2 : 2 ≤ rc.points + (calculate_gap_score (max_gap_hours events) domain_config).points
          + (calculate_dependency_score events).points
      · rw [if_pos h2]
        simp
        omega
      · rw [if_neg h2]
        simp
        omega
  · by_cases h5 : 5 ≤ rc.points + (calculate_gap_score (max_gap_hours events) domain_config).points
        + (calculate_dependency_score events).points
    · rw [if_pos h5]
      simp
      omega
    · rw [if_neg h5]
      by_cases h2 : 2 ≤ rc.points + (calculate_gap_score (max_gap_hours events) domain_config).points
          + (calculate_dependency_score events).points
      · rw [if_pos h2]
        simp
        omega
      · rw [if_neg h2]
        simp
        omega

/-- Witness for C1: with an empty event list, the Oral Care configuration
and a 7-day period, the care risk score is returned successfully together
with its refusal component. -/
theorem C1_care_risk_score_shape_witness :
    ∃ crs refusal_comp,
      calculate_care_risk_score [] oral_care_config 7 = .ok crs
      ∧ calculate_refusal_score (refusal_flag_count []) 7 = .ok refusal_comp := by
  obtain ⟨crs, rc, h1, h2, _⟩ := C1_care_risk_score_shape [] oral_care_config 7 (by omega)
  exact ⟨crs, rc, h1, h2⟩

/-! ### Claims about the batch materializer -/

/-- The combination list is as long as residents times domains. -/
lemma all_pairs_of_length (rs ds : List (ℕ × String)) :
    (all_pairs_of rs ds).length = rs.length * ds.length := by
  induction rs with
  | nil => simp [all_pairs_of]
  | cons r rest ih =>
    simp only [all_pairs_of, List.cons_bind, List.length_append, List.length_map,
      List.length_cons] at ih ⊢
    rw [ih]
    ring

/-- Membership in the combination list. -/
lemma mem_all_pairs_of (rs ds : List (ℕ × String)) (r d : ℕ × String) :
    (r, d) ∈ all_pairs_of rs ds ↔ r ∈ rs ∧ d ∈ ds := by
  simp [all_pairs_of, List.mem_bind, List.mem_map]

/-- analyze_resident_domain raises exactly for the invalid-configuration
inputs: an unknown domain name or a non-positive period. -/
lemma analyze_resident_domain_error (rid dname : String) (events : List ADLEvent) (pd : ℤ)
    (h : ADL_DOMAINS dname = none ∨ pd ≤ 0) :
    ∃ e, analyze_resident_domain rid dname events pd = .error e := by
  rcases h with h | h
  · exact ⟨"Unknown domain: " ++ dname, by simp [analyze_resident_domain, h]⟩
  · cases hlk : ADL_DOMAINS dname with
    | none => exact ⟨"Unknown domain: " ++ dname, by simp [analyze_resident_domain, hlk]⟩
    | some cfg =>
      have hcrs : calculate_care_risk_score events cfg pd
          = .error "period_days must be a positive integer" := by
        unfold calculate_care_risk_score calculate_refusal_score
        rw [if_pos h]
        rfl
      exact ⟨"period_days must be a positive integer",
        by simp [analyze_resident_domain, hlk, hcrs, Except.bind]⟩

/-- A combination whose events are non-empty but whose scoring raises makes
the whole loop over the remaining combinations raise: there is no
per-item handler. -/
lemma run_pairs_error_of_bad_pair (db : Database) (pd : ℤ)
    (pairs : List ((ℕ × String) × (ℕ × String))) (q : (ℕ × String) × (ℕ × String))
    (hq : q ∈ pairs)
    (hnonempty : (db.fetch_events q.1.1 q.2.1).isEmpty = false)
    (hbad : ADL_DOMAINS q.2.2 = none ∨ pd ≤ 0) :
    ∃ e, run_pairs db pd pairs = .error e := by
  induction pairs with
  | nil => cases hq
  | cons p rest ih =>
    rcases List.mem_cons.mp hq with heq | hmem
    · subst heq
      obtain ⟨e, he⟩ := analyze_resident_domain_error (toString q.1.1) q.2.2
        (to_adl_events (db.fetch_events q.1.1 q.2.1)) pd hbad
      exact ⟨e, by simp [run_pairs, hnonempty, he]⟩
    · obtain ⟨e, he⟩ := ih hmem
      cases hempty : (db.fetch_events p.1.1 p.2.1).isEmpty with
      | true => exact ⟨e, by simp [run_pairs, hempty, he]⟩
      | false =>
        cases ha : analyze_resident_domain (toString p.1.1) p.2.2
            (to_adl_events (db.fetch_events p.1.1 p.2.1)) pd with
        | error e2 => exact ⟨e2, by simp [run_pairs, hempty, ha]⟩
        | ok an => exact ⟨e, by simp [run_pairs, hempty, ha, he]⟩

/-- Counting invariant of the combination loop: processed equals the number
of combinations, splits into written plus skipped, written rows match the
non-empty combinations one-for-one in order, and skipped counts the empty
ones. -/
lemma run_pairs_ok_spec (db : Database) (pd : ℤ) :
    ∀ (pairs : List ((ℕ × String) × (ℕ × String))) (p w s : ℕ) (out : List ScoreRow),
      run_pairs db pd pairs = .ok (p, w, s, out) →
      p = pairs.length ∧ p = w + s ∧ w = out.length
      ∧ s = (pairs.filter fun q => (db.fetch_events q.1.1 q.2.1).isEmpty).length
      ∧ out.map (fun sr => (sr.resident_id, sr.domain_id))
          = (pairs.filter fun q => !(db.fetch_events q.1.1 q.2.1).isEmpty).map
              fun q => (q.1.1, q.2.1) := by
  intro pairs
  induction pairs with
  | nil =>
    intro p w s out h
    simp [run_pairs] at h
    obtain ⟨hp, hw, hs, ho⟩ := h
    subst hp
    subst hw
    subst hs
    subst ho
    simp
  | cons q rest ih =>
    intro p w s out h
    cases hempty : (db.fetch_events q.1.1 q.2.1).isEmpty with
    | true =>
      cases hr : run_pairs db pd rest with
      | error e =>
        rw [show run_pairs db pd (q :: rest) = .error e by
          simp [run_pairs, hempty, hr]] at h
        cases h
      | ok tup =>
        obtain ⟨p', w', s', out'⟩ := tup
        rw [show run_pairs db pd (q :: rest) = .ok (p' + 1, w', s' + 1, out') by
          simp [run_pairs, hempty, hr]] at h
        simp only [Except.ok.injEq, Prod.mk.injEq] at h
        obtain ⟨hp, hw, hs, ho⟩ := h
        subst hp
        subst hw
        subst hs
        subst ho
        obtain ⟨ih1, ih2, ih3, ih4, ih5⟩ := ih p' w' s' out' hr
        refine ⟨by simp [ih1], by omega, ih3, ?_, ?_⟩
        · rw [List.filter_cons_of_pos (by simp [hempty])]
          simp [ih4]
        · rw [List.filter_cons_of_neg (by simp [hempty])]
          exact ih5
    | false =>
      cases ha : analyze_resident_domain (toString q.1.1) q.2.2
          (to_adl_events (db.fetch_events q.1.1 q.2.1)) pd with
      | error e =>
        rw [show run_pairs db pd (q :: rest) = .error e by
          simp [run_pairs, hempty, ha]] at h
        cases h
      | ok analysis =>
        cases hr : run_pairs db pd rest with
        | error e =>
          rw [show run_pairs db pd (q :: rest) = .error e by
            simp [run_pairs, hempty, ha, hr]] at h
          cases h
        | ok tup =>
          obtain ⟨p', w', s', out'⟩ := tup
          rw [show run_pairs db pd (q :: rest)
              = .ok (p' + 1, w' + 1, s', ⟨q.1.1, q.2.1, analysis⟩ :: out') by
            simp [run_pairs, hempty, ha, hr]] at h
          simp only [Except.ok.injEq, Prod.mk.injEq] at h
          obtain ⟨hp, hw, hs, ho⟩ := h
          subst hp
          subst hw
          subst hs
          subst ho
          obtain ⟨ih1, ih2, ih3, ih4, ih5⟩ := ih p' w' s' out' hr
          refine ⟨by simp [ih1], by omega, by simp [ih3], ?_, ?_⟩
          · rw [List.filter_cons_of_neg (by simp [hempty])]
            exact ih4
          · rw [List.filter_cons_of_pos (by simp [hempty])]
            simp [ih5]

/-- C9: whenever calculate_period_scores returns, each resident×domain pair
is counted exactly once in processed, a pair with zero in-window events is
counted as skipped and writes no score row, every other pair writes
exactly one score row and is counted as written, and
processed = written + skipped. -/
theorem C9_period_score_counts (db : Database) (period_days : ℤ)
    (summary : BatchSummary) (writes : List ScoreRow)
    (h : calculate_period_scores db period_days = .ok (summary, writes)) :
    summary.processed = db.residents.length * db.domains.length
    ∧ summary.processed = summary.written + summary.skipped
    ∧ summary.written = writes.length
    ∧ summary.skipped
        = ((all_pairs db).filter fun q => (db.fetch_events q.1.1 q.2.1).isEmpty).length
    ∧ writes.map (fun sr => (sr.resident_id, sr.domain_id))
        = ((all_pairs db).filter fun q => !(db.fetch_events q.1.1 q.2.1).isEmpty).map
            fun q => (q.1.1, q.2.1) := by
  unfold calculate_period_scores at h
  cases hr : run_pairs db period_days (all_pairs db) with
  | error e =>
    rw [hr] at h
    cases h
  | ok tup =>
    obtain ⟨p, w, s, out⟩ := tup
    rw [hr] at h
    simp only [Except.ok.injEq, Prod.mk.injEq] at h
    obtain ⟨hsum, hout⟩ := h
    obtain ⟨h1, h2, h3, h4, h5⟩ := run_pairs_ok_spec db period_days (all_pairs db) p w s out hr
    subst hout
    have hproc : summary.processed = p := by rw [← hsum]
    have hwrit : summary.written = w := by rw [← hsum]
    have hskip : summary.skipped = s := by rw [← hsum]
    refine ⟨?_, ?_, ?_, ?_, h5⟩
    · rw [hproc, h1]
      exact all_pairs_of_length db.residents db.domains
    · rw [hproc, hwrit, hskip]
      exact h2
    · rw [hwrit]
      exact h3
    · rw [hskip]
      exact h4

/-- A database with one resident, two configured domains and no in-window
events at all: every combination is skipped. -/
def c9_db : Database :=
  { residents := [(1, "Ann")]
    domains := [(10, "Oral Care"), (11, "Toileting")]
    fetch_events := fun _ _ => [] }

/-- The summary of running calculate_period_scores on c9_db. -/
def c9_summary : BatchSummary := ⟨1, 2, 2, 0, 2⟩

/-- Witness for C9 on c9_db: 2 combinations processed, 0 written, 2 skipped,
and the counts reconcile. -/
theorem C9_period_score_counts_witness :
    c9_summary.processed = c9_db.residents.length * c9_db.domains.length
    ∧ c9_summary.processed = c9_summary.written + c9_summary.skipped
    ∧ c9_summary.written = ([] : List ScoreRow).length
    ∧ c9_summary.skipped
        = ((all_pairs c9_db).filter fun q => (c9_db.fetch_events q.1.1 q.2.1).isEmpty).length
    ∧ ([] : List ScoreRow).map (fun sr => (sr.resident_id, sr.domain_id))
        = ((all_pairs c9_db).filter fun q => !(c9_db.fetch_events q.1.1 q.2.1).isEmpty).map
            fun q => (q.1.1, q.2.1) :=
  C9_period_score_counts c9_db 7 c9_summary [] rfl

/-- One stored event row with plain text and no refusal. -/
def c8_event_row : EventRow :=
  { event_timestamp := 0
    logged_timestamp := 0
    assistance_level := some "Some Assistance"
    is_refusal_raw := false
    event_title := some "Morning care"
    event_description := none }

/-- A database whose first configured domain name is unknown to
ADL_DOMAINS while events exist for every combination; a second, valid
domain follows in the batch. -/
def c8_db : Database :=
  { residents := [(1, "Ann")]
    domains := [(10, "Mystery Domain"), (11, "Oral Care")]
    fetch_events := fun _ _ => [c8_event_row] }

/-- Counterexample to C8 as stated: on c8_db the invalid-configuration
error of the first resident×domain combination is not caught and counted;
calculate_period_scores aborts with the error, processing no further
combination and returning no counts. -/
theorem C8_counterexample_batch_aborts :
    calculate_period_scores c8_db 7 = .error "Unknown domain: Mystery Domain" := by
  rfl

/-- C8 amended: when scoring one resident×domain combination raises an
invalid-configuration error (unknown domain name, or non-positive
period_days, with events present for that combination), the Materializer
does not catch it per item: calculate_period_scores propagates the error
and returns no counts, aborting the whole batch run. -/
theorem C8_invalid_config_aborts_batch (db : Database) (period_days : ℤ)
    (q : (ℕ × String) × (ℕ × String)) (hq : q ∈ all_pairs db)
    (hnonempty : (db.fetch_events q.1.1 q.2.1).isEmpty = false)
    (hbad : ADL_DOMAINS q.2.2 = none ∨ period_days ≤ 0) :
    ∃ e, calculate_period_scores db period_days = .error e := by
  obtain ⟨e, he⟩ := run_pairs_error_of_bad_pair db period_days (all_pairs db) q
    hq hnonempty hbad
  exact ⟨e, by simp [calculate_period_scores, he]⟩

/-- Witness for the amended C8: a non-positive period (-3) with events
present aborts the whole batch on c8_db. -/
theorem C8_invalid_config_aborts_batch_witness :
    ∃ e, calculate_period_scores c8_db (-3) = .error e :=
  C8_invalid_config_aborts_batch c8_db (-3) ((1, "Ann"), (10, "Mystery Domain"))
    (by simp [all_pairs, all_pairs_of, c8_db]) rfl (Or.inr (by omega))
